import Mathlib

/-!
Shallow embedding of `pycket/session.py` (the `SessionManager` class).

The Python module manages server-side sessions for Tornado request
handlers: a session is a dict persisted in Redis under a session id that
travels in a secure cookie named PYCKET_ID.

Modelling choices:
* A Python dict is an association list with unique keys; assignment to an
  existing key keeps its position, fresh keys are appended (Python 3 dict
  semantics).  `alookup`, `aset`, `asetdefault` mirror `d[k]`/`d.get`,
  `d[k] = v`, `d.setdefault`; `adelStrict` is the unguarded `del d[k]`
  (KeyError when the key is absent) and `adel` the guarded
  `if k in d: del d[k]` removal.
* `pickle.dumps`/`pickle.loads` are modelled as the identity on session
  mappings: serialization is an opaque, faithful round-trip and no claim
  concerns the byte format.
* The Tornado handler is an external collaborator: `get_secure_cookie`
  reads the (validated) inbound request cookies only, `set_secure_cookie`
  writes the outbound response cookies; the inbound cookies are immutable
  for the lifetime of the request.  This matches both the Tornado API and
  the spec, which speaks of reading "from the inbound cookie" and setting
  "an authenticated outbound cookie".
* `uuid4` is modelled by a counter in the world state producing pairwise
  distinct identifier strings.
* Redis `SET` stores the value and clears any TTL; `EXPIRE` then attaches
  one.  Reads never touch TTLs.
* Ghost fields `resolveCount` (number of `__get_session_id` executions)
  and `writeCount` (number of Redis `SET` commands) instrument the state;
  no source behaviour depends on them.
-/

/-- Python values stored in a session or in a settings dict.  `Value.none`
is the Python `None` object (also the default of `get` and the sentinel
tested by `__getitem__`). -/
inductive Value where
  | none : Value
  | int : Int → Value
  | str : String → Value
  | bool : Bool → Value
deriving DecidableEq, Repr

/-- A Python dict from strings, as an association list with unique keys. -/
abbrev PyDict (α : Type) := List (String × α)

/-- `d.get(k)` / `d[k]` lookup. -/
def alookup {α : Type} : PyDict α → String → Option α
  | [], _ => Option.none
  | (k, v) :: rest, key => if k = key then some v else alookup rest key

/-- `d[k] = v`: replace in place if the key exists, else append. -/
def aset {α : Type} : PyDict α → String → α → PyDict α
  | [], key, val => [(key, val)]
  | (k, v) :: rest, key, val =>
      if k = key then (k, val) :: rest else (k, v) :: aset rest key val

/-- Removal of a key if present: the guarded Python pattern
`if k in d: del d[k]` (used by `__clean_redis_settings`); a no-op when
the key is absent. -/
def adel {α : Type} : PyDict α → String → PyDict α
  | [], _ => []
  | (k, v) :: rest, key =>
      if k = key then adel rest key else (k, v) :: adel rest key

/-- Unguarded Python `del d[k]`: removes the binding when the key is
present, fails (KeyError) when it is absent. -/
def adelStrict {α : Type} (d : PyDict α) (key : String) : Option (PyDict α) :=
  match alookup d key with
  | some _ => some (adel d key)
  | Option.none => Option.none

/-- `d.setdefault(k, dflt)`: keep an existing entry, else append the
default. -/
def asetdefault {α : Type} (d : PyDict α) (key : String) (dflt : α) : PyDict α :=
  match alookup d key with
  | some _ => d
  | Option.none => d ++ [(key, dflt)]

/-- A session mapping (the unit of persistence). -/
abbrev Session := PyDict Value

/-- A settings dict (`pycket_cookies`, `pycket_redis`, Redis kwargs). -/
abbrev SettingsDict := PyDict Value

/-- `pickle.dumps`, modelled as the identity on mappings. -/
def pickleDumps (s : Session) : Session := s

/-- `pickle.loads`, modelled as the identity on mappings. -/
def pickleLoads (s : Session) : Session := s

/-- One Redis record: the stored (pickled) session plus its TTL
(`Option.none` = no expiry attached). -/
structure RedisEntry where
  data : Session
  ttl : Option Nat
deriving DecidableEq, Repr

/-- The Redis server state visible to the session dataset. -/
structure Redis where
  entries : PyDict RedisEntry
deriving DecidableEq, Repr

/-- Redis `GET`. -/
def redisGet (r : Redis) (key : String) : Option Session :=
  (alookup r.entries key).map RedisEntry.data

/-- TTL currently attached to a key (`Option.none` when the key is absent
or persistent). -/
def redisTtl (r : Redis) (key : String) : Option Nat :=
  (alookup r.entries key).bind RedisEntry.ttl

/-- Redis `SET`: stores the value and clears any TTL. -/
def redisSet (r : Redis) (key : String) (s : Session) : Redis :=
  ⟨aset r.entries key ⟨s, Option.none⟩⟩

/-- Redis `EXPIRE`: attaches a TTL to an existing key. -/
def redisExpire (r : Redis) (key : String) (seconds : Nat) : Redis :=
  match alookup r.entries key with
  | Option.none => r
  | some e => ⟨aset r.entries key ⟨e.data, some seconds⟩⟩

/-- The two pycket settings dicts inside `handler.settings`;
`Option.none` means the application did not configure the key at all
(then `settings.get(..., \x7b\x7d)` yields a fresh dict and the
application settings are not touched). -/
structure AppSettings where
  pycketCookies : Option SettingsDict
  pycketRedis : Option SettingsDict
deriving DecidableEq, Repr

/-- The Tornado request handler collaborator: validated inbound secure
cookies (immutable per request), outbound cookies set on the response,
and the application settings. -/
structure Handler where
  requestCookies : PyDict String
  responseCookies : PyDict String
  settings : AppSettings
deriving DecidableEq, Repr

/-- The whole world a `SessionManager` instance acts on: its handler, the
Redis server, the uuid generator state, the lazily created dataset
connection (recorded as the cleaned settings it was opened with), and two
ghost counters. -/
structure World where
  handler : Handler
  store : Redis
  fresh : Nat
  dataset : Option SettingsDict
  resolveCount : Nat
  writeCount : Nat
deriving DecidableEq, Repr

/-- `SessionManager.SESSION_ID_NAME`. -/
def SESSION_ID_NAME : String := "PYCKET_ID"

/-- `SessionManager.DB` (the default sessions dataset number). -/
def DB : Value := Value.int 0

/-- `SessionManager.EXPIRE_SECONDS`. -/
def EXPIRE_SECONDS : Nat := 24 * 60 * 60

/-- `SessionManager.DB_SETTING`. -/
def DB_SETTING : String := "db_sessions"

/-- Modelled from the spec: `pycket/notification.py` is not under `src/`;
the spec names the notification subsystem dataset selector key
"db_notifications" (`NotificationManager.DB_SETTING`). -/
def NotificationManager.DB_SETTING : String := "db_notifications"

/-- `handler.get_secure_cookie(name)`: reads the validated inbound
cookie. -/
def getSecureCookie (w : World) (name : String) : Option String :=
  alookup w.handler.requestCookies name

/-- `handler.set_secure_cookie(name, value, **attrs)`: sets an outbound
cookie on the response (the attributes only shape the cookie header). -/
def setSecureCookie (w : World) (name value : String) (attrs : SettingsDict) : World :=
  let _ := attrs
  {w with handler :=
    {w.handler with responseCookies := aset w.handler.responseCookies name value}}

/-- `SessionManager.__cookie_settings`: fetches the shared
`pycket_cookies` dict (or a fresh one) and inserts defaults for
"expires" and "expires_days" in place; when the dict came from
`handler.settings` that shared object is mutated. -/
def cookieSettings (w : World) : SettingsDict × World :=
  let cs0 := w.handler.settings.pycketCookies.getD []
  let cs1 := asetdefault cs0 "expires" Value.none
  let cs2 := asetdefault cs1 "expires_days" Value.none
  match w.handler.settings.pycketCookies with
  | Option.none => (cs2, w)
  | some _ =>
      (cs2, {w with handler := {w.handler with settings :=
        {w.handler.settings with pycketCookies := some cs2}}})

/-- `uuid4` output for generator state `n`. -/
def uuidStr (n : Nat) : String := "uuid-" ++ toString n

/-- `SessionManager.__create_session_id`: mints `str(uuid4())` and sets
it as the outbound PYCKET_ID cookie with the configured attributes. -/
def createSessionId (w : World) : String × World :=
  let sid := uuidStr w.fresh
  let w1 : World := {w with fresh := w.fresh + 1}
  let r := cookieSettings w1
  (sid, setSecureCookie r.snd SESSION_ID_NAME sid r.fst)

/-- `SessionManager.__get_session_id`: reads the inbound cookie, minting
a fresh identifier when it is absent.  The ghost `resolveCount` counts
the executions of this method. -/
def getSessionId (w : World) : String × World :=
  let w1 : World := {w with resolveCount := w.resolveCount + 1}
  match getSecureCookie w1 SESSION_ID_NAME with
  | some sid => (sid, w1)
  | Option.none => createSessionId w1

/-- `SessionManager.__clean_redis_settings`: works on a copy, deleting
the two custom dataset selector keys when present. -/
def cleanRedisSettings (rs : SettingsDict) : SettingsDict :=
  adel (adel rs DB_SETTING) NotificationManager.DB_SETTING

/-- `SessionManager.__redis_settings`: fetches the shared `pycket_redis`
dict (or a fresh one), writes `rs["db"] = rs.get("db_sessions", 0)` in
place (mutating the shared object when it came from the settings), then
returns the cleaned copy. -/
def redisSettings (w : World) : SettingsDict × World :=
  let rs0 := w.handler.settings.pycketRedis.getD []
  let rs1 := aset rs0 "db" ((alookup rs0 DB_SETTING).getD DB)
  let w1 : World :=
    match w.handler.settings.pycketRedis with
    | Option.none => w
    | some _ =>
        {w with handler := {w.handler with settings :=
          {w.handler.settings with pycketRedis := some rs1}}}
  (cleanRedisSettings rs1, w1)

/-- `SessionManager.__setup_dataset`: lazily opens the Redis connection
with the cleaned settings, once per manager. -/
def setupDataset (w : World) : World :=
  match w.dataset with
  | some _ => w
  | Option.none =>
      let r := redisSettings w
      {r.snd with dataset := some r.fst}

/-- `SessionManager.__set_session_in_db`: resolve the id, pickle the
session, `SET` it and `EXPIRE` it. -/
def setSessionInDb (w : World) (session : Session) : World :=
  let r := getSessionId w
  let sid := r.fst
  let pickled := pickleDumps session
  let w2 := setupDataset r.snd
  let w3 : World := {w2 with store := redisSet w2.store sid pickled}
  let w4 : World := {w3 with writeCount := w3.writeCount + 1}
  {w4 with store := redisExpire w4.store sid EXPIRE_SECONDS}

/-- `SessionManager.__to_dict`: a missing record is the empty dict. -/
def toDict : Option Session → Session
  | Option.none => []
  | some raw => pickleLoads raw

/-- `SessionManager.__get_session_from_db`: resolve the id, `GET` the
record, unpickle (empty dict when absent). -/
def getSessionFromDb (w : World) : Session × World :=
  let r := getSessionId w
  let w2 := setupDataset r.snd
  (toDict (redisGet w2.store r.fst), w2)

/-- `SessionManager.__change_session`: load, apply the callback in
memory, save the whole mapping back. -/
def changeSession (w : World) (callback : Session → Session) : World :=
  let r := getSessionFromDb w
  setSessionInDb r.snd (callback r.fst)

/-- `SessionManager.set(name, value)`. -/
def SessionManager.set (w : World) (name : String) (value : Value) : World :=
  changeSession w (fun session => aset session name value)

/-- `SessionManager.get(name, default=None)` (the default argument is
passed explicitly). -/
def SessionManager.get (w : World) (name : String) (default : Value) : Value × World :=
  let r := getSessionFromDb w
  ((alookup r.fst name).getD default, r.snd)

/-- The in-memory mutation performed by `SessionManager.delete(*names)`:
`names_in_common` is filtered once against the ORIGINAL key set (so a
present name listed twice survives the filter twice), then each name is
removed with an unguarded `del` — the second removal of the same name
raises KeyError, which aborts the whole operation (`Option.none`). -/
def deleteCallback (names : List String) (session : Session) : Option Session :=
  let keys := session.map Prod.fst
  let namesInCommon := names.filter (fun n => keys.contains n)
  namesInCommon.foldlM (fun acc n => adelStrict acc n) session

/-- `SessionManager.__change_session` invoked with a callback that can
raise (as the `delete` closure can): the whole stored mapping is loaded
and handed to the callback; if the callback raises, the exception
propagates and `__set_session_in_db` is never reached (no write, no TTL
refresh); otherwise the mutated mapping is saved in full.  The first
component is `some ()` on success and `Option.none` when the callback
raised. -/
def changeSessionE (w : World) (callback : Session → Option Session) :
    Option Unit × World :=
  let r := getSessionFromDb w
  match callback r.fst with
  | Option.none => (Option.none, r.snd)
  | some s => (some (), setSessionInDb r.snd s)

/-- `SessionManager.delete(*names)` (the first component records whether
the call raised KeyError). -/
def SessionManager.delete (w : World) (names : List String) :
    Option Unit × World :=
  changeSessionE w (deleteCallback names)

/-- `SessionManager.__delitem__ = delete` (one name). -/
def SessionManager.delitem (w : World) (name : String) : Option Unit × World :=
  SessionManager.delete w [name]

/-- `SessionManager.keys()`. -/
def SessionManager.keys (w : World) : List String × World :=
  let r := getSessionFromDb w
  (r.fst.map Prod.fst, r.snd)

/-- Result of a strict subscript read: the value, or a raised
`KeyError` message. -/
inductive PyResult where
  | ok (v : Value)
  | keyError (msg : String)
deriving DecidableEq, Repr

/-- `SessionManager.__getitem__`: raises KeyError when `get` returned
`None`. -/
def SessionManager.getitem (w : World) (key : String) : PyResult × World :=
  let r := SessionManager.get w key Value.none
  if r.fst = Value.none then
    (PyResult.keyError (key ++ " not found in dataset"), r.snd)
  else
    (PyResult.ok r.fst, r.snd)

/-- `SessionManager.__setitem__`. -/
def SessionManager.setitem (w : World) (key : String) (value : Value) : World :=
  SessionManager.set w key value

/-- `SessionManager.__contains__`. -/
def SessionManager.contains (w : World) (key : String) : Bool × World :=
  let r := getSessionFromDb w
  ((r.fst.map Prod.fst).contains key, r.snd)

/-- The session mapping currently stored under `sid` (empty when no
record exists). -/
def sessionAt (w : World) (sid : String) : Session :=
  toDict (redisGet w.store sid)

/-- The TTL currently attached to the record under `sid`. -/
def ttlAt (w : World) (sid : String) : Option Nat :=
  redisTtl w.store sid

/-- A sequence of `set` calls performed through the same handle. -/
def applySets (w : World) (ops : List (String × Value)) : World :=
  ops.foldl (fun w p => SessionManager.set w p.fst p.snd) w

/-- The value last set for `name` by the sequence `ops` (if any). -/
def lastSet (ops : List (String × Value)) (name : String) : Option Value :=
  ops.foldl (fun acc p => if p.fst = name then some p.snd else acc) Option.none

/-- One read-only handle operation. -/
inductive ReadOp where
  | getOp (name : String) (default : Value)
  | containsOp (key : String)
  | keysOp
deriving Repr

/-- Execute one read-only operation, keeping only the state. -/
def applyRead (w : World) : ReadOp → World
  | ReadOp.getOp n d => (SessionManager.get w n d).snd
  | ReadOp.containsOp k => (SessionManager.contains w k).snd
  | ReadOp.keysOp => (SessionManager.keys w).snd

/-- A brand-new client and empty store: no inbound cookie, no settings
configured, empty Redis, no connection yet. -/
def emptyWorld : World :=
  ⟨⟨[], [], ⟨Option.none, Option.none⟩⟩, ⟨[]⟩, 0, Option.none, 0, 0⟩

/-- A client presenting a valid identifier cookie "sid"; empty store. -/
def cookieWorld : World :=
  ⟨⟨[(SESSION_ID_NAME, "sid")], [], ⟨Option.none, Option.none⟩⟩, ⟨[]⟩, 0,
    Option.none, 0, 0⟩

/-- A handler whose application settings pass "db" and "host" directly in
`pycket_redis`. -/
def dbWorld : World :=
  ⟨⟨[], [], ⟨Option.none, some [("db", Value.int 5), ("host", Value.str "h")]⟩⟩,
    ⟨[]⟩, 0, Option.none, 0, 0⟩

/-- A handler with both pycket settings dicts configured (for observing
the in-place configuration side effects). -/
def settingsWorld : World :=
  ⟨⟨[], [], ⟨some [("domain", Value.str "d")],
     some [(DB_SETTING, Value.int 3), ("port", Value.int 7)]⟩⟩,
    ⟨[]⟩, 0, Option.none, 0, 0⟩

/-! ### Association list lemmas -/

theorem alookup_aset {α : Type} (l : PyDict α) (k k' : String) (v : α) :
    alookup (aset l k v) k' = if k = k' then some v else alookup l k' := by
  induction l with
  | nil => by_cases h : k = k' <;> simp [aset, alookup, h]
  | cons p rest ih =>
    obtain ⟨pk, pv⟩ := p
    by_cases hpk : pk = k
    · subst hpk
      by_cases hk : pk = k' <;> simp [aset, alookup, hk]
    · by_cases hk : pk = k'
      · subst hk
        have hne : ¬ k = pk := fun h => hpk h.symm
        simp [aset, alookup, hpk, hne]
      · simp [aset, alookup, hpk, hk, ih]

theorem alookup_adel {α : Type} (l : PyDict α) (k k' : String) :
    alookup (adel l k) k' = if k = k' then Option.none else alookup l k' := by
  induction l with
  | nil => by_cases h : k = k' <;> simp [adel, alookup, h]
  | cons p rest ih =>
    obtain ⟨pk, pv⟩ := p
    by_cases hpk : pk = k
    · subst hpk
      by_cases hk : pk = k'
      · subst hk; simp [adel, alookup, ih]
      · simp [adel, alookup, hk, ih]
    · by_cases hk : pk = k'
      · subst hk
        have hne : ¬ k = pk := fun h => hpk h.symm
        simp [adel, alookup, hpk, hne]
      · simp [adel, alookup, hpk, hk, ih]

theorem alookup_append {α : Type} (l1 l2 : PyDict α) (k : String) :
    alookup (l1 ++ l2) k =
      match alookup l1 k with
      | some v => some v
      | Option.none => alookup l2 k := by
  induction l1 with
  | nil => simp [alookup]
  | cons p rest ih =>
    obtain ⟨pk, pv⟩ := p
    by_cases h : pk = k <;> simp [alookup, h, ih]

theorem alookup_asetdefault_self {α : Type} (l : PyDict α) (k : String) (d : α) :
    alookup (asetdefault l k d) k = some ((alookup l k).getD d) := by
  unfold asetdefault
  cases h : alookup l k with
  | some v => simp [h]
  | none => simp [alookup_append, h, alookup]

theorem alookup_asetdefault_ne {α : Type} (l : PyDict α) (k k' : String) (d : α)
    (h : ¬ k = k') : alookup (asetdefault l k d) k' = alookup l k' := by
  unfold asetdefault
  cases hl : alookup l k with
  | some v => rfl
  | none =>
    cases hl' : alookup l k' with
    | some v => simp [alookup_append, hl', alookup]
    | none => simp [alookup_append, hl', alookup, h]

theorem keys_contains_eq_isSome {α : Type} (l : PyDict α) (k : String) :
    (l.map Prod.fst).contains k = (alookup l k).isSome := by
  induction l with
  | nil => simp [alookup]
  | cons p rest ih =>
    obtain ⟨pk, pv⟩ := p
    by_cases h : pk = k
    · subst h; simp [alookup]
    · have hne : ¬ k = pk := fun hk => h hk.symm
      simp at ih
      simp [alookup, h, hne, ih]

theorem alookup_eq_none_of_not_contains {α : Type} (l : PyDict α) (k : String)
    (h : (l.map Prod.fst).contains k = false) : alookup l k = Option.none := by
  have hk := keys_contains_eq_isSome l k
  rw [h] at hk
  cases hl : alookup l k with
  | some v => rw [hl] at hk; simp at hk
  | none => rfl

theorem contains_filter (p : String → Bool) (l : List String) (a : String) :
    (l.filter p).contains a = (l.contains a && p a) := by
  induction l with
  | nil => simp
  | cons x xs ih =>
    by_cases hx : x = a
    · subst hx
      cases hp : p x <;> simp [List.filter, hp, List.contains_cons, ih]
    · have hne : ¬ a = x := fun h => hx h.symm
      cases hp : p x <;> simp [List.filter, hp, List.contains_cons, hne, ih]

theorem alookup_foldl_adel {α : Type} (ns : List String) :
    ∀ (s : PyDict α) (k : String),
      alookup (ns.foldl (fun acc n => adel acc n) s) k
        = if ns.contains k then Option.none else alookup s k := by
  induction ns with
  | nil => intro s k; simp
  | cons n ns ih =>
    intro s k
    rw [List.foldl_cons, ih, alookup_adel]
    by_cases hn : n = k
    · subst hn; simp [List.contains_cons]
    · have hne : ¬ k = n := fun h => hn h.symm
      by_cases hns : ns.contains k = true <;>
        simp [List.contains_cons, hn, hne, hns] at *

theorem alookup_eq_none_of_forall_not_mem {α : Type} (s : PyDict α) (k : String)
    (h : ∀ x : α, (k, x) ∉ s) : alookup s k = Option.none := by
  induction s with
  | nil => rfl
  | cons p rest ih =>
    obtain ⟨pk, pv⟩ := p
    by_cases hp : pk = k
    · subst hp; exact absurd (List.mem_cons_self _ _) (h pv)
    · simp only [alookup, if_neg hp]
      exact ih (fun x hx => h x (List.mem_cons_of_mem _ hx))

theorem alookup_common_foldl (names : List String) (s : Session) (k : String) :
    alookup ((names.filter (fun n => (s.map Prod.fst).contains n)).foldl
        (fun acc n => adel acc n) s) k
      = if names.contains k then Option.none else alookup s k := by
  rw [alookup_foldl_adel, contains_filter]
  by_cases hn : k ∈ names
  · by_cases hp : ((s.map Prod.fst).contains k) = true
    · simp [hn, hp]
      exact fun hmem => alookup_eq_none_of_forall_not_mem s k hmem
    · have hp' : (s.map Prod.fst).contains k = false := by
        cases h : (s.map Prod.fst).contains k
        · rfl
        · exact absurd h hp
      simp [hn, hp', alookup_eq_none_of_not_contains s k hp']
  · simp [hn]

theorem adelStrict_of_present {α : Type} (s : PyDict α) (k : String)
    (h : (alookup s k).isSome = true) : adelStrict s k = some (adel s k) := by
  unfold adelStrict
  cases halk : alookup s k with
  | none => rw [halk] at h; simp at h
  | some v => rfl

theorem adelStrict_of_absent {α : Type} (s : PyDict α) (k : String)
    (h : alookup s k = Option.none) : adelStrict s k = Option.none := by
  unfold adelStrict
  rw [h]

theorem foldlM_adelStrict {α : Type} (ns : List String) :
    ∀ s : PyDict α, ns.Nodup → (∀ n ∈ ns, (alookup s n).isSome = true) →
      ns.foldlM (fun acc n => adelStrict acc n) s
        = some (ns.foldl (fun acc n => adel acc n) s) := by
  induction ns with
  | nil => intro s _ _; rfl
  | cons n ns ih =>
    intro s hnodup hall
    rw [List.foldlM_cons,
        adelStrict_of_present s n (hall n (List.mem_cons_self n ns))]
    rw [List.nodup_cons] at hnodup
    have hrest : ∀ m ∈ ns, (alookup (adel s n) m).isSome = true := by
      intro m hm
      have hne : ¬ n = m := by
        intro heq
        exact hnodup.1 (by rw [heq]; exact hm)
      rw [alookup_adel, if_neg hne]
      exact hall m (List.mem_cons_of_mem n hm)
    calc (some (adel s n) >>= fun s2 =>
            ns.foldlM (fun acc m => adelStrict acc m) s2)
        = ns.foldlM (fun acc m => adelStrict acc m) (adel s n) := rfl
      _ = some (ns.foldl (fun acc m => adel acc m) (adel s n)) :=
          ih (adel s n) hnodup.2 hrest
      _ = some ((n :: ns).foldl (fun acc m => adel acc m) s) := rfl

theorem common_filter_nil_of_absent (names : List String) (s : Session)
    (h : ∀ n ∈ names, alookup s n = Option.none) :
    names.filter (fun n => (s.map Prod.fst).contains n) = [] := by
  rw [List.filter_eq_nil_iff]
  intro n hn
  rw [keys_contains_eq_isSome, h n hn]
  simp

theorem deleteCallback_eq_foldl (names : List String) (s : Session)
    (hc : (names.filter (fun n => (s.map Prod.fst).contains n)).Nodup) :
    deleteCallback names s
      = some ((names.filter (fun n => (s.map Prod.fst).contains n)).foldl
          (fun acc n => adel acc n) s) := by
  unfold deleteCallback
  dsimp only
  apply foldlM_adelStrict _ s hc
  intro n hn
  rw [List.mem_filter] at hn
  rw [← keys_contains_eq_isSome]
  exact hn.2

theorem deleteCallback_of_absent (names : List String) (s : Session)
    (h : ∀ n ∈ names, alookup s n = Option.none) :
    deleteCallback names s = some s := by
  rw [deleteCallback_eq_foldl names s
        (by rw [common_filter_nil_of_absent names s h]; exact List.nodup_nil),
      common_filter_nil_of_absent names s h]
  rfl

/-! ### Redis write lemmas -/

theorem redisGet_write (st : Redis) (sid : String) (s : Session) (t : Nat) (k : String) :
    redisGet (redisExpire (redisSet st sid s) sid t) k
      = if sid = k then some s else redisGet st k := by
  unfold redisExpire redisSet
  simp only [alookup_aset, if_pos rfl]
  by_cases h : sid = k <;> simp [redisGet, alookup_aset, h]

theorem redisTtl_write (st : Redis) (sid : String) (s : Session) (t : Nat) (k : String) :
    redisTtl (redisExpire (redisSet st sid s) sid t) k
      = if sid = k then some t else redisTtl st k := by
  unfold redisExpire redisSet
  simp only [alookup_aset, if_pos rfl]
  by_cases h : sid = k <;> simp [redisTtl, alookup_aset, h]

/-! ### Frame lemmas for the state functions -/

@[simp] theorem cookieSettings_store (w : World) :
    (cookieSettings w).snd.store = w.store := by
  unfold cookieSettings; cases h : w.handler.settings.pycketCookies <;> simp [h]

@[simp] theorem cookieSettings_fresh (w : World) :
    (cookieSettings w).snd.fresh = w.fresh := by
  unfold cookieSettings; cases h : w.handler.settings.pycketCookies <;> simp [h]

@[simp] theorem cookieSettings_dataset (w : World) :
    (cookieSettings w).snd.dataset = w.dataset := by
  unfold cookieSettings; cases h : w.handler.settings.pycketCookies <;> simp [h]

@[simp] theorem cookieSettings_resolveCount (w : World) :
    (cookieSettings w).snd.resolveCount = w.resolveCount := by
  unfold cookieSettings; cases h : w.handler.settings.pycketCookies <;> simp [h]

@[simp] theorem cookieSettings_writeCount (w : World) :
    (cookieSettings w).snd.writeCount = w.writeCount := by
  unfold cookieSettings; cases h : w.handler.settings.pycketCookies <;> simp [h]

@[simp] theorem cookieSettings_requestCookies (w : World) :
    (cookieSettings w).snd.handler.requestCookies = w.handler.requestCookies := by
  unfold cookieSettings; cases h : w.handler.settings.pycketCookies <;> simp [h]

@[simp] theorem cookieSettings_responseCookies (w : World) :
    (cookieSettings w).snd.handler.responseCookies = w.handler.responseCookies := by
  unfold cookieSettings; cases h : w.handler.settings.pycketCookies <;> simp [h]

@[simp] theorem cookieSettings_pycketRedis (w : World) :
    (cookieSettings w).snd.handler.settings.pycketRedis
      = w.handler.settings.pycketRedis := by
  unfold cookieSettings; cases h : w.handler.settings.pycketCookies <;> simp [h]

theorem cookieSettings_pycketCookies_some (w : World) (cs : SettingsDict)
    (h : w.handler.settings.pycketCookies = some cs) :
    (cookieSettings w).snd.handler.settings.pycketCookies
      = some (asetdefault (asetdefault cs "expires" Value.none)
          "expires_days" Value.none) := by
  unfold cookieSettings; simp [h]

@[simp] theorem createSessionId_fst (w : World) :
    (createSessionId w).fst = uuidStr w.fresh := by
  unfold createSessionId; simp [setSecureCookie]

@[simp] theorem createSessionId_store (w : World) :
    (createSessionId w).snd.store = w.store := by
  unfold createSessionId; simp [setSecureCookie]

@[simp] theorem createSessionId_fresh (w : World) :
    (createSessionId w).snd.fresh = w.fresh + 1 := by
  unfold createSessionId; simp [setSecureCookie]

@[simp] theorem createSessionId_dataset (w : World) :
    (createSessionId w).snd.dataset = w.dataset := by
  unfold createSessionId; simp [setSecureCookie]

@[simp] theorem createSessionId_resolveCount (w : World) :
    (createSessionId w).snd.resolveCount = w.resolveCount := by
  unfold createSessionId; simp [setSecureCookie]

@[simp] theorem createSessionId_writeCount (w : World) :
    (createSessionId w).snd.writeCount = w.writeCount := by
  unfold createSessionId; simp [setSecureCookie]

@[simp] theorem createSessionId_requestCookies (w : World) :
    (createSessionId w).snd.handler.requestCookies = w.handler.requestCookies := by
  unfold createSessionId; simp [setSecureCookie]

@[simp] theorem createSessionId_responseCookies (w : World) :
    (createSessionId w).snd.handler.responseCookies
      = aset w.handler.responseCookies SESSION_ID_NAME (uuidStr w.fresh) := by
  unfold createSessionId; simp [setSecureCookie]

@[simp] theorem createSessionId_pycketRedis (w : World) :
    (createSessionId w).snd.handler.settings.pycketRedis
      = w.handler.settings.pycketRedis := by
  unfold createSessionId; simp [setSecureCookie]

theorem createSessionId_pycketCookies_some (w : World) (cs : SettingsDict)
    (h : w.handler.settings.pycketCookies = some cs) :
    (createSessionId w).snd.handler.settings.pycketCookies
      = some (asetdefault (asetdefault cs "expires" Value.none)
          "expires_days" Value.none) := by
  unfold createSessionId
  simp [setSecureCookie]
  rw [cookieSettings_pycketCookies_some _ cs (by simp [h])]

theorem getSessionId_of_cookie (w : World) (sid : String)
    (h : alookup w.handler.requestCookies SESSION_ID_NAME = some sid) :
    getSessionId w = (sid, {w with resolveCount := w.resolveCount + 1}) := by
  unfold getSessionId getSecureCookie
  simp [h]

theorem getSessionId_fst_noCookie (w : World)
    (h : alookup w.handler.requestCookies SESSION_ID_NAME = Option.none) :
    (getSessionId w).fst = uuidStr w.fresh := by
  unfold getSessionId getSecureCookie
  simp [h]

@[simp] theorem getSessionId_store (w : World) :
    (getSessionId w).snd.store = w.store := by
  unfold getSessionId getSecureCookie
  cases h : alookup w.handler.requestCookies SESSION_ID_NAME <;> simp [h]

@[simp] theorem getSessionId_dataset (w : World) :
    (getSessionId w).snd.dataset = w.dataset := by
  unfold getSessionId getSecureCookie
  cases h : alookup w.handler.requestCookies SESSION_ID_NAME <;> simp [h]

@[simp] theorem getSessionId_writeCount (w : World) :
    (getSessionId w).snd.writeCount = w.writeCount := by
  unfold getSessionId getSecureCookie
  cases h : alookup w.handler.requestCookies SESSION_ID_NAME <;> simp [h]

@[simp] theorem getSessionId_resolveCount (w : World) :
    (getSessionId w).snd.resolveCount = w.resolveCount + 1 := by
  unfold getSessionId getSecureCookie
  cases h : alookup w.handler.requestCookies SESSION_ID_NAME <;> simp [h]

@[simp] theorem getSessionId_requestCookies (w : World) :
    (getSessionId w).snd.handler.requestCookies = w.handler.requestCookies := by
  unfold getSessionId getSecureCookie
  cases h : alookup w.handler.requestCookies SESSION_ID_NAME <;> simp [h]

@[simp] theorem getSessionId_pycketRedis (w : World) :
    (getSessionId w).snd.handler.settings.pycketRedis
      = w.handler.settings.pycketRedis := by
  unfold getSessionId getSecureCookie
  cases h : alookup w.handler.requestCookies SESSION_ID_NAME <;> simp [h]

theorem getSessionId_responseCookies_noCookie (w : World)
    (h : alookup w.handler.requestCookies SESSION_ID_NAME = Option.none) :
    (getSessionId w).snd.handler.responseCookies
      = aset w.handler.responseCookies SESSION_ID_NAME (uuidStr w.fresh) := by
  unfold getSessionId getSecureCookie
  simp [h]

theorem getSessionId_pycketCookies_noCookie (w : World) (cs : SettingsDict)
    (h : alookup w.handler.requestCookies SESSION_ID_NAME = Option.none)
    (hc : w.handler.settings.pycketCookies = some cs) :
    (getSessionId w).snd.handler.settings.pycketCookies
      = some (asetdefault (asetdefault cs "expires" Value.none)
          "expires_days" Value.none) := by
  unfold getSessionId getSecureCookie
  simp [h]
  rw [createSessionId_pycketCookies_some _ cs (by simp [hc])]

theorem redisSettings_fst (w : World) :
    (redisSettings w).fst =
      cleanRedisSettings
        (aset (w.handler.settings.pycketRedis.getD []) "db"
          ((alookup (w.handler.settings.pycketRedis.getD []) DB_SETTING).getD DB)) := by
  unfold redisSettings
  cases h : w.handler.settings.pycketRedis <;> simp [h]

@[simp] theorem redisSettings_store (w : World) :
    (redisSettings w).snd.store = w.store := by
  unfold redisSettings; cases h : w.handler.settings.pycketRedis <;> simp [h]

@[simp] theorem redisSettings_fresh (w : World) :
    (redisSettings w).snd.fresh = w.fresh := by
  unfold redisSettings; cases h : w.handler.settings.pycketRedis <;> simp [h]

@[simp] theorem redisSettings_dataset (w : World) :
    (redisSettings w).snd.dataset = w.dataset := by
  unfold redisSettings; cases h : w.handler.settings.pycketRedis <;> simp [h]

@[simp] theorem redisSettings_resolveCount (w : World) :
    (redisSettings w).snd.resolveCount = w.resolveCount := by
  unfold redisSettings; cases h : w.handler.settings.pycketRedis <;> simp [h]

@[simp] theorem redisSettings_writeCount (w : World) :
    (redisSettings w).snd.writeCount = w.writeCount := by
  unfold redisSettings; cases h : w.handler.settings.pycketRedis <;> simp [h]

@[simp] theorem redisSettings_requestCookies (w : World) :
    (redisSettings w).snd.handler.requestCookies = w.handler.requestCookies := by
  unfold redisSettings; cases h : w.handler.settings.pycketRedis <;> simp [h]

@[simp] theorem redisSettings_responseCookies (w : World) :
    (redisSettings w).snd.handler.responseCookies = w.handler.responseCookies := by
  unfold redisSettings; cases h : w.handler.settings.pycketRedis <;> simp [h]

@[simp] theorem redisSettings_pycketCookies (w : World) :
    (redisSettings w).snd.handler.settings.pycketCookies
      = w.handler.settings.pycketCookies := by
  unfold redisSettings; cases h : w.handler.settings.pycketRedis <;> simp [h]

theorem redisSettings_pycketRedis_some (w : World) (rs : SettingsDict)
    (h : w.handler.settings.pycketRedis = some rs) :
    (redisSettings w).snd.handler.settings.pycketRedis
      = some (aset rs "db" ((alookup rs DB_SETTING).getD DB)) := by
  unfold redisSettings; simp [h]

@[simp] theorem setupDataset_store (w : World) :
    (setupDataset w).store = w.store := by
  unfold setupDataset; cases h : w.dataset <;> simp [h]

@[simp] theorem setupDataset_fresh (w : World) :
    (setupDataset w).fresh = w.fresh := by
  unfold setupDataset; cases h : w.dataset <;> simp [h]

@[simp] theorem setupDataset_resolveCount (w : World) :
    (setupDataset w).resolveCount = w.resolveCount := by
  unfold setupDataset; cases h : w.dataset <;> simp [h]

@[simp] theorem setupDataset_writeCount (w : World) :
    (setupDataset w).writeCount = w.writeCount := by
  unfold setupDataset; cases h : w.dataset <;> simp [h]

@[simp] theorem setupDataset_requestCookies (w : World) :
    (setupDataset w).handler.requestCookies = w.handler.requestCookies := by
  unfold setupDataset; cases h : w.dataset <;> simp [h]

@[simp] theorem setupDataset_responseCookies (w : World) :
    (setupDataset w).handler.responseCookies = w.handler.responseCookies := by
  unfold setupDataset; cases h : w.dataset <;> simp [h]

@[simp] theorem setupDataset_pycketCookies (w : World) :
    (setupDataset w).handler.settings.pycketCookies
      = w.handler.settings.pycketCookies := by
  unfold setupDataset; cases h : w.dataset <;> simp [h]

theorem setupDataset_pycketRedis_fresh (w : World) (rs : SettingsDict)
    (hd : w.dataset = Option.none)
    (h : w.handler.settings.pycketRedis = some rs) :
    (setupDataset w).handler.settings.pycketRedis
      = some (aset rs "db" ((alookup rs DB_SETTING).getD DB)) := by
  unfold setupDataset
  simp [hd]
  rw [redisSettings_pycketRedis_some w rs h]

theorem setupDataset_dataset_fresh (w : World)
    (hd : w.dataset = Option.none) :
    (setupDataset w).dataset = some (redisSettings w).fst := by
  unfold setupDataset
  simp [hd]

/-! ### Characterization of the store-level protocol -/

@[simp] theorem getSessionFromDb_store (w : World) :
    (getSessionFromDb w).snd.store = w.store := by
  unfold getSessionFromDb; simp

@[simp] theorem getSessionFromDb_writeCount (w : World) :
    (getSessionFromDb w).snd.writeCount = w.writeCount := by
  unfold getSessionFromDb; simp

@[simp] theorem getSessionFromDb_resolveCount (w : World) :
    (getSessionFromDb w).snd.resolveCount = w.resolveCount + 1 := by
  unfold getSessionFromDb; simp

@[simp] theorem getSessionFromDb_requestCookies (w : World) :
    (getSessionFromDb w).snd.handler.requestCookies
      = w.handler.requestCookies := by
  unfold getSessionFromDb; simp

theorem getSessionFromDb_fst (w : World) :
    (getSessionFromDb w).fst = toDict (redisGet w.store (getSessionId w).fst) := by
  unfold getSessionFromDb; simp

theorem getSessionFromDb_fst_of_cookie (w : World) (sid : String)
    (h : alookup w.handler.requestCookies SESSION_ID_NAME = some sid) :
    (getSessionFromDb w).fst = sessionAt w sid := by
  rw [getSessionFromDb_fst, getSessionId_of_cookie w sid h]
  rfl

theorem setSessionInDb_store_of_cookie (w : World) (sid : String) (s : Session)
    (h : alookup w.handler.requestCookies SESSION_ID_NAME = some sid) :
    (setSessionInDb w s).store
      = redisExpire (redisSet w.store sid (pickleDumps s)) sid EXPIRE_SECONDS := by
  unfold setSessionInDb
  rw [getSessionId_of_cookie w sid h]
  simp

@[simp] theorem setSessionInDb_writeCount (w : World) (s : Session) :
    (setSessionInDb w s).writeCount = w.writeCount + 1 := by
  unfold setSessionInDb; simp

@[simp] theorem setSessionInDb_requestCookies (w : World) (s : Session) :
    (setSessionInDb w s).handler.requestCookies = w.handler.requestCookies := by
  unfold setSessionInDb; simp

@[simp] theorem setSessionInDb_resolveCount (w : World) (s : Session) :
    (setSessionInDb w s).resolveCount = w.resolveCount + 1 := by
  unfold setSessionInDb; simp

theorem changeSession_store_of_cookie (w : World) (sid : String)
    (f : Session → Session)
    (h : alookup w.handler.requestCookies SESSION_ID_NAME = some sid) :
    (changeSession w f).store
      = redisExpire (redisSet w.store sid (pickleDumps (f (sessionAt w sid))))
          sid EXPIRE_SECONDS := by
  unfold changeSession
  dsimp only
  rw [getSessionFromDb_fst_of_cookie w sid h,
      setSessionInDb_store_of_cookie _ sid _ (by simp [h])]
  simp

@[simp] theorem changeSession_requestCookies (w : World) (f : Session → Session) :
    (changeSession w f).handler.requestCookies = w.handler.requestCookies := by
  unfold changeSession; simp

@[simp] theorem changeSession_writeCount (w : World) (f : Session → Session) :
    (changeSession w f).writeCount = w.writeCount + 1 := by
  unfold changeSession; simp

@[simp] theorem changeSession_resolveCount (w : World) (f : Session → Session) :
    (changeSession w f).resolveCount = w.resolveCount + 2 := by
  unfold changeSession; simp

/-! ### Characterization of the public operations -/

theorem get_fst (w : World) (k : String) (d : Value) :
    (SessionManager.get w k d).fst
      = (alookup (getSessionFromDb w).fst k).getD d := rfl

theorem get_fst_of_cookie (w : World) (sid : String) (k : String) (d : Value)
    (h : alookup w.handler.requestCookies SESSION_ID_NAME = some sid) :
    (SessionManager.get w k d).fst = (alookup (sessionAt w sid) k).getD d := by
  rw [get_fst, getSessionFromDb_fst_of_cookie w sid h]

theorem contains_fst (w : World) (k : String) :
    (SessionManager.contains w k).fst
      = ((getSessionFromDb w).fst.map Prod.fst).contains k := rfl

theorem keys_fst (w : World) :
    (SessionManager.keys w).fst = (getSessionFromDb w).fst.map Prod.fst := rfl

@[simp] theorem get_snd_store (w : World) (k : String) (d : Value) :
    (SessionManager.get w k d).snd.store = w.store := by
  unfold SessionManager.get; simp

@[simp] theorem contains_snd_store (w : World) (k : String) :
    (SessionManager.contains w k).snd.store = w.store := by
  unfold SessionManager.contains; simp

@[simp] theorem keys_snd_store (w : World) :
    (SessionManager.keys w).snd.store = w.store := by
  unfold SessionManager.keys; simp

@[simp] theorem get_snd_writeCount (w : World) (k : String) (d : Value) :
    (SessionManager.get w k d).snd.writeCount = w.writeCount := by
  unfold SessionManager.get; simp

@[simp] theorem contains_snd_writeCount (w : World) (k : String) :
    (SessionManager.contains w k).snd.writeCount = w.writeCount := by
  unfold SessionManager.contains; simp

@[simp] theorem keys_snd_writeCount (w : World) :
    (SessionManager.keys w).snd.writeCount = w.writeCount := by
  unfold SessionManager.keys; simp

theorem getSessionFromDb_responseCookies (w : World) :
    (getSessionFromDb w).snd.handler.responseCookies
      = (getSessionId w).snd.handler.responseCookies := by
  unfold getSessionFromDb; simp

theorem getSessionFromDb_fst_noCookie (w : World)
    (hck : alookup w.handler.requestCookies SESSION_ID_NAME = Option.none)
    (hfresh : redisGet w.store (uuidStr w.fresh) = Option.none) :
    (getSessionFromDb w).fst = [] := by
  rw [getSessionFromDb_fst, getSessionId_fst_noCookie w hck, hfresh]
  rfl

theorem set_requestCookies (w : World) (k : String) (v : Value) :
    (SessionManager.set w k v).handler.requestCookies
      = w.handler.requestCookies := by
  unfold SessionManager.set; simp

theorem set_sessionAt (w : World) (sid : String) (k : String) (v : Value)
    (h : alookup w.handler.requestCookies SESSION_ID_NAME = some sid) :
    sessionAt (SessionManager.set w k v) sid = aset (sessionAt w sid) k v := by
  unfold SessionManager.set sessionAt
  rw [changeSession_store_of_cookie w sid _ h, redisGet_write]
  simp [pickleDumps, pickleLoads, toDict]
  rfl

theorem set_ttl (w : World) (sid : String) (k : String) (v : Value)
    (h : alookup w.handler.requestCookies SESSION_ID_NAME = some sid) :
    ttlAt (SessionManager.set w k v) sid = some EXPIRE_SECONDS := by
  unfold SessionManager.set ttlAt
  rw [changeSession_store_of_cookie w sid _ h, redisTtl_write]
  simp

theorem changeSessionE_of_some (w : World) (sid : String)
    (f : Session → Option Session) (s2 : Session)
    (h : alookup w.handler.requestCookies SESSION_ID_NAME = some sid)
    (hf : f (sessionAt w sid) = some s2) :
    (changeSessionE w f).fst = some ()
    ∧ (changeSessionE w f).snd.store
        = redisExpire (redisSet w.store sid (pickleDumps s2)) sid EXPIRE_SECONDS
    ∧ (changeSessionE w f).snd.writeCount = w.writeCount + 1 := by
  unfold changeSessionE
  dsimp only
  rw [getSessionFromDb_fst_of_cookie w sid h, hf]
  have h2 : alookup (getSessionFromDb w).snd.handler.requestCookies
      SESSION_ID_NAME = some sid := by
    rw [getSessionFromDb_requestCookies]
    exact h
  dsimp only
  refine ⟨rfl, ?_, ?_⟩
  · rw [setSessionInDb_store_of_cookie _ sid s2 h2, getSessionFromDb_store]
  · rw [setSessionInDb_writeCount, getSessionFromDb_writeCount]

theorem changeSessionE_of_none (w : World) (f : Session → Option Session)
    (hf : f (getSessionFromDb w).fst = Option.none) :
    (changeSessionE w f).fst = Option.none
    ∧ (changeSessionE w f).snd.store = w.store
    ∧ (changeSessionE w f).snd.writeCount = w.writeCount := by
  unfold changeSessionE
  dsimp only
  rw [hf]
  exact ⟨rfl, by rw [getSessionFromDb_store], by rw [getSessionFromDb_writeCount]⟩

theorem delete_of_success (w : World) (sid : String) (names : List String)
    (s2 : Session)
    (h : alookup w.handler.requestCookies SESSION_ID_NAME = some sid)
    (hdc : deleteCallback names (sessionAt w sid) = some s2) :
    (SessionManager.delete w names).fst = some ()
    ∧ sessionAt (SessionManager.delete w names).snd sid = s2
    ∧ ttlAt (SessionManager.delete w names).snd sid = some EXPIRE_SECONDS
    ∧ (SessionManager.delete w names).snd.writeCount = w.writeCount + 1 := by
  have hc := changeSessionE_of_some w sid (deleteCallback names) s2 h hdc
  unfold SessionManager.delete
  refine ⟨hc.1, ?_, ?_, hc.2.2⟩
  · unfold sessionAt
    rw [hc.2.1, redisGet_write, if_pos rfl]
    rfl
  · unfold ttlAt
    rw [hc.2.1, redisTtl_write, if_pos rfl]

theorem delete_of_raise (w : World) (names : List String)
    (hdc : deleteCallback names (getSessionFromDb w).fst = Option.none) :
    (SessionManager.delete w names).fst = Option.none
    ∧ (SessionManager.delete w names).snd.store = w.store
    ∧ (SessionManager.delete w names).snd.writeCount = w.writeCount :=
  changeSessionE_of_none w (deleteCallback names) hdc

/-! ### Sequences of writes -/

theorem applySets_requestCookies (ops : List (String × Value)) :
    ∀ w : World, (applySets w ops).handler.requestCookies
      = w.handler.requestCookies := by
  induction ops with
  | nil => intro w; rfl
  | cons p ops ih =>
    intro w
    unfold applySets at *
    rw [List.foldl_cons, ih, set_requestCookies]

theorem applySets_sessionAt (ops : List (String × Value)) :
    ∀ (w : World) (sid : String),
      alookup w.handler.requestCookies SESSION_ID_NAME = some sid →
      sessionAt (applySets w ops) sid
        = ops.foldl (fun s p => aset s p.fst p.snd) (sessionAt w sid) := by
  induction ops with
  | nil => intro w sid _; rfl
  | cons p ops ih =>
    intro w sid h
    unfold applySets at *
    rw [List.foldl_cons, List.foldl_cons,
        ih (SessionManager.set w p.fst p.snd) sid
          (by rw [set_requestCookies]; exact h),
        set_sessionAt w sid p.fst p.snd h]

theorem alookup_foldl_aset (ops : List (String × Value)) :
    ∀ (s : Session) (name : String),
      alookup (ops.foldl (fun s p => aset s p.fst p.snd) s) name
        = ops.foldl (fun acc p => if p.fst = name then some p.snd else acc)
            (alookup s name) := by
  induction ops with
  | nil => intro s name; rfl
  | cons p ops ih =>
    intro s name
    rw [List.foldl_cons, List.foldl_cons, ih, alookup_aset]

theorem foldl_lastSet_some (ops : List (String × Value)) (name : String) (v : Value) :
    ∀ a : Option Value,
      lastSet ops name = some v →
      ops.foldl (fun acc p => if p.fst = name then some p.snd else acc) a
        = some v := by
  induction ops with
  | nil => intro a h; exact absurd h (by simp [lastSet])
  | cons p ops ih =>
    intro a h
    unfold lastSet at h
    rw [List.foldl_cons] at h ⊢
    by_cases hp : p.fst = name
    · simp only [hp, if_pos rfl] at h ⊢
      exact h
    · simp only [if_neg hp] at h ⊢
      exact ih a h

/-! ### The claims -/

/-- C1: for every mapping written via repeated `set` calls under one
Session Identifier (the inbound cookie carries `sid`), a subsequent `get`
returns the exact value last set for that key. -/
theorem C1_round_trip (w : World) (sid : String) (ops : List (String × Value))
    (name : String) (v d : Value)
    (h : alookup w.handler.requestCookies SESSION_ID_NAME = some sid)
    (hlast : lastSet ops name = some v) :
    (SessionManager.get (applySets w ops) name d).fst = v := by
  rw [get_fst_of_cookie (applySets w ops) sid name d
        (by rw [applySets_requestCookies]; exact h),
      applySets_sessionAt ops w sid h, alookup_foldl_aset,
      foldl_lastSet_some ops name v _ hlast]
  rfl

/-- Witness for C1 at a concrete client: after setting "a" to 1 and then
to 2 under cookie "sid", `get` returns 2. -/
theorem C1_round_trip_witness :
    lastSet [("a", Value.int 1), ("a", Value.int 2)] "a" = some (Value.int 2)
    ∧ (SessionManager.get
        (applySets cookieWorld [("a", Value.int 1), ("a", Value.int 2)])
        "a" (Value.int 0)).fst = Value.int 2 :=
  ⟨by decide,
   C1_round_trip cookieWorld "sid" [("a", Value.int 1), ("a", Value.int 2)]
     "a" (Value.int 2) (Value.int 0) (by decide) (by decide)⟩

/-- C2 (counterexample): for a client with no inbound cookie, a single
`set` already mints TWO distinct identifiers (it loads under "uuid-0"
and saves under "uuid-1"), the identifier resolution has then run three
times after a following `get`, and that `get` does not see the value the
same handle just set — refuting both "resolution is executed at most
once per handle and cached" and "every operation performed through the
same handle uses one and the same Session Identifier". -/
theorem C2_counterexample :
    (SessionManager.set emptyWorld "a" (Value.int 1)).fresh = 2
    ∧ redisGet (SessionManager.set emptyWorld "a" (Value.int 1)).store
        (uuidStr 0) = Option.none
    ∧ redisGet (SessionManager.set emptyWorld "a" (Value.int 1)).store
        (uuidStr 1) = some [("a", Value.int 1)]
    ∧ (SessionManager.get (SessionManager.set emptyWorld "a" (Value.int 1))
        "a" Value.none).fst = Value.none
    ∧ (SessionManager.get (SessionManager.set emptyWorld "a" (Value.int 1))
        "a" Value.none).snd.resolveCount = 3 := by
  decide

/-- C2 (amended): identifier resolution is executed anew on every store
access — twice per mutating operation — and is never cached on the
handle; the resolved identifier is stable only because it is re-read
from the inbound cookie: when the request carries the identifier cookie
`sid`, every resolution (and hence every operation) through the handle
uses that same `sid`. -/
theorem C2_resolution_per_operation (w : World) (sid k : String) (v : Value)
    (h : alookup w.handler.requestCookies SESSION_ID_NAME = some sid) :
    (getSessionId w).fst = sid
    ∧ (SessionManager.set w k v).resolveCount = w.resolveCount + 2
    ∧ (SessionManager.set w k v).handler.requestCookies
        = w.handler.requestCookies
    ∧ (getSessionId (SessionManager.set w k v)).fst = sid := by
  refine ⟨?_, ?_, set_requestCookies w k v, ?_⟩
  · rw [getSessionId_of_cookie w sid h]
  · unfold SessionManager.set
    simp
  · rw [getSessionId_of_cookie _ sid (by rw [set_requestCookies]; exact h)]

/-- Witness for C2 (amended) at the concrete cookie-carrying client. -/
theorem C2_resolution_per_operation_witness :
    (getSessionId cookieWorld).fst = "sid"
    ∧ (SessionManager.set cookieWorld "k" (Value.int 1)).resolveCount
        = cookieWorld.resolveCount + 2
    ∧ (SessionManager.set cookieWorld "k" (Value.int 1)).handler.requestCookies
        = cookieWorld.handler.requestCookies
    ∧ (getSessionId (SessionManager.set cookieWorld "k" (Value.int 1))).fst
        = "sid" :=
  C2_resolution_per_operation cookieWorld "sid" "k" (Value.int 1) (by decide)

/-- C3 (counterexample): storing the Python value `None` under key "k"
makes the key present (`contains` is true) yet the strict subscript
accessor still raises KeyError — so the strict accessor does NOT fail
exactly when the key is absent, and subscript read on a present key does
not always return the stored value. -/
theorem C3_counterexample :
    (SessionManager.contains (SessionManager.set cookieWorld "k" Value.none)
        "k").fst = true
    ∧ (SessionManager.getitem (SessionManager.set cookieWorld "k" Value.none)
        "k").fst = PyResult.keyError "k not found in dataset" := by
  decide

/-- C3 (amended): the strict accessor raises KeyError exactly when the
key is absent OR its stored value is `None`; the permissive `get` never
raises and returns the caller default for an absent key; subscript read
returns the stored value for every present key whose value is not
`None`. -/
theorem C3_strict_accessor (w : World) (k : String) (d : Value) :
    ((SessionManager.getitem w k).fst
        = PyResult.keyError (k ++ " not found in dataset")
      ↔ (alookup (getSessionFromDb w).fst k = Option.none
          ∨ alookup (getSessionFromDb w).fst k = some Value.none))
    ∧ (alookup (getSessionFromDb w).fst k = Option.none →
        (SessionManager.get w k d).fst = d)
    ∧ (∀ v : Value, alookup (getSessionFromDb w).fst k = some v →
        ¬ v = Value.none →
        (SessionManager.getitem w k).fst = PyResult.ok v) := by
  refine ⟨?_, ?_, ?_⟩
  · unfold SessionManager.getitem
    dsimp only
    rw [get_fst]
    cases halk : alookup (getSessionFromDb w).fst k with
    | none => simp
    | some v =>
      by_cases hv : v = Value.none
      · subst hv; simp
      · simp [hv]
  · intro habs
    rw [get_fst, habs]
    rfl
  · intro v hv hvne
    unfold SessionManager.getitem
    dsimp only
    rw [get_fst, hv]
    simp [hvne]

/-- Witness for C3 (amended): a present key with a non-None value is
returned by the strict accessor. -/
theorem C3_strict_accessor_witness :
    (SessionManager.getitem (SessionManager.set cookieWorld "k" (Value.int 5))
        "k").fst = PyResult.ok (Value.int 5) :=
  (C3_strict_accessor (SessionManager.set cookieWorld "k" (Value.int 5)) "k"
      Value.none).2.2 (Value.int 5) (by decide) (by decide)

/-- C4: a brand-new client (no inbound cookie, its minted identifier not
in the store) that only reads observes an empty session (`keys` empty,
`get` returns the default, `contains` false), writes nothing to the
store, yet gets an identifier cookie set on the response. -/
theorem C4_lazy_creation (w : World) (k : String) (d : Value)
    (hck : alookup w.handler.requestCookies SESSION_ID_NAME = Option.none)
    (hfresh : redisGet w.store (uuidStr w.fresh) = Option.none) :
    (SessionManager.keys w).fst = []
    ∧ (SessionManager.get w k d).fst = d
    ∧ (SessionManager.contains w k).fst = false
    ∧ (SessionManager.get w k d).snd.store = w.store
    ∧ (SessionManager.contains w k).snd.store = w.store
    ∧ (SessionManager.keys w).snd.store = w.store
    ∧ (SessionManager.get w k d).snd.writeCount = w.writeCount
    ∧ alookup (SessionManager.get w k d).snd.handler.responseCookies
        SESSION_ID_NAME = some (uuidStr w.fresh) := by
  have hsess := getSessionFromDb_fst_noCookie w hck hfresh
  refine ⟨?_, ?_, ?_, by simp, by simp, by simp, by simp, ?_⟩
  · rw [keys_fst, hsess]; rfl
  · rw [get_fst, hsess]; rfl
  · rw [contains_fst, hsess]; rfl
  · have hrc : (SessionManager.get w k d).snd.handler.responseCookies
        = (getSessionId w).snd.handler.responseCookies := by
      unfold SessionManager.get
      dsimp only
      rw [getSessionFromDb_responseCookies]
    rw [hrc, getSessionId_responseCookies_noCookie w hck, alookup_aset]
    simp

/-- Witness for C4 at the concrete brand-new client. -/
theorem C4_lazy_creation_witness :
    (SessionManager.keys emptyWorld).fst = []
    ∧ (SessionManager.get emptyWorld "x" (Value.int 9)).fst = Value.int 9
    ∧ (SessionManager.contains emptyWorld "x").fst = false
    ∧ (SessionManager.get emptyWorld "x" (Value.int 9)).snd.store
        = emptyWorld.store
    ∧ (SessionManager.contains emptyWorld "x").snd.store = emptyWorld.store
    ∧ (SessionManager.keys emptyWorld).snd.store = emptyWorld.store
    ∧ (SessionManager.get emptyWorld "x" (Value.int 9)).snd.writeCount
        = emptyWorld.writeCount
    ∧ alookup (SessionManager.get emptyWorld "x"
        (Value.int 9)).snd.handler.responseCookies SESSION_ID_NAME
        = some (uuidStr emptyWorld.fresh) :=
  C4_lazy_creation emptyWorld "x" (Value.int 9) (by decide) (by decide)

/-- C5 (counterexample): with "a" present and `delete("a", "a")` called,
`names_in_common` keeps the duplicate, the second in-memory `del` raises
KeyError before the save, and the operation performs NO write: the store
(record and TTL) is byte-for-byte unchanged and "a" is still stored —
refuting "removes each listed name that is present" and "a full write
cycle is still performed". -/
theorem C5_counterexample :
    (SessionManager.delete (SessionManager.set cookieWorld "a" (Value.int 1))
        ["a", "a"]).fst = Option.none
    ∧ (SessionManager.delete (SessionManager.set cookieWorld "a" (Value.int 1))
        ["a", "a"]).snd.store
        = (SessionManager.set cookieWorld "a" (Value.int 1)).store
    ∧ (SessionManager.delete (SessionManager.set cookieWorld "a" (Value.int 1))
        ["a", "a"]).snd.writeCount
        = (SessionManager.set cookieWorld "a" (Value.int 1)).writeCount
    ∧ alookup (sessionAt (SessionManager.delete
        (SessionManager.set cookieWorld "a" (Value.int 1)) ["a", "a"]).snd
        "sid") "a" = some (Value.int 1) := by
  decide

/-- C5 (amended): provided no present name is listed more than once,
`delete(*names)` raises nothing, removes each listed name that is
present, leaves the observable mapping contents unchanged when no listed
name exists, and still performs a full write cycle that rewrites the
record and resets its TTL to the fixed idle timeout; a present name
listed more than once instead raises KeyError after the first in-memory
removal and aborts before any write (see the counterexample). -/
theorem C5_delete_semantics (w : World) (sid : String) (names : List String)
    (h : alookup w.handler.requestCookies SESSION_ID_NAME = some sid)
    (hcommon : (names.filter
        (fun n => ((sessionAt w sid).map Prod.fst).contains n)).Nodup) :
    (SessionManager.delete w names).fst = some ()
    ∧ (∀ k : String,
        alookup (sessionAt (SessionManager.delete w names).snd sid) k
          = if names.contains k then Option.none
            else alookup (sessionAt w sid) k)
    ∧ ttlAt (SessionManager.delete w names).snd sid = some EXPIRE_SECONDS
    ∧ (SessionManager.delete w names).snd.writeCount = w.writeCount + 1
    ∧ ((∀ n ∈ names, alookup (sessionAt w sid) n = Option.none) →
        sessionAt (SessionManager.delete w names).snd sid = sessionAt w sid) := by
  have hdc := deleteCallback_eq_foldl names (sessionAt w sid) hcommon
  have hs := delete_of_success w sid names _ h hdc
  refine ⟨hs.1, ?_, hs.2.2.1, hs.2.2.2, ?_⟩
  · intro k
    rw [hs.2.1, alookup_common_foldl]
  · intro habs
    rw [hs.2.1, common_filter_nil_of_absent names _ habs]
    rfl

/-- Witness for C5 (amended): deleting the present name "a" together
with the absent name "zz" raises nothing, removes "a", and resets the
TTL to the fixed timeout. -/
theorem C5_delete_semantics_witness :
    (SessionManager.delete (SessionManager.set cookieWorld "a" (Value.int 1))
        ["a", "zz"]).fst = some ()
    ∧ alookup (sessionAt (SessionManager.delete
        (SessionManager.set cookieWorld "a" (Value.int 1)) ["a", "zz"]).snd
        "sid") "a" = Option.none
    ∧ ttlAt (SessionManager.delete
        (SessionManager.set cookieWorld "a" (Value.int 1)) ["a", "zz"]).snd
        "sid" = some EXPIRE_SECONDS := by
  have hc := C5_delete_semantics
    (SessionManager.set cookieWorld "a" (Value.int 1)) "sid" ["a", "zz"]
    (by decide) (by decide)
  refine ⟨hc.1, ?_, hc.2.2.1⟩
  rw [hc.2.1 "a"]
  decide

/-- C6: reads are pure with respect to the store — any sequence of
`get`/`contains`/`keys` operations leaves the Redis state (records AND
their TTLs) and the write counter exactly as they were. -/
theorem C6_idempotent_read (ops : List ReadOp) :
    ∀ w : World, (ops.foldl applyRead w).store = w.store
      ∧ (ops.foldl applyRead w).writeCount = w.writeCount := by
  induction ops with
  | nil => intro w; exact ⟨rfl, rfl⟩
  | cons op ops ih =>
    intro w
    rw [List.foldl_cons]
    refine ⟨?_, ?_⟩
    · rw [(ih (applyRead w op)).1]
      cases op <;> simp [applyRead]
    · rw [(ih (applyRead w op)).2]
      cases op <;> simp [applyRead]

/-- C7: the fixed idle timeout is 86400 seconds; every save writes the
fully serialized mapping and resets the TTL to exactly 86400, discarding
any previous countdown. -/
theorem C7_fixed_ttl (w : World) (sid : String) (session : Session)
    (k : String) (v : Value)
    (h : alookup w.handler.requestCookies SESSION_ID_NAME = some sid) :
    EXPIRE_SECONDS = 86400
    ∧ redisGet (setSessionInDb w session).store sid
        = some (pickleDumps session)
    ∧ redisTtl (setSessionInDb w session).store sid = some 86400
    ∧ ttlAt (SessionManager.set w k v) sid = some 86400 := by
  refine ⟨rfl, ?_, ?_, ?_⟩
  · rw [setSessionInDb_store_of_cookie w sid session h, redisGet_write,
        if_pos rfl]
  · rw [setSessionInDb_store_of_cookie w sid session h, redisTtl_write,
        if_pos rfl]
    decide
  · rw [set_ttl w sid k v h]
    decide

/-- Witness for C7 at the concrete cookie-carrying client. -/
theorem C7_fixed_ttl_witness :
    EXPIRE_SECONDS = 86400
    ∧ redisGet (setSessionInDb cookieWorld [("a", Value.int 1)]).store "sid"
        = some (pickleDumps [("a", Value.int 1)])
    ∧ redisTtl (setSessionInDb cookieWorld [("a", Value.int 1)]).store "sid"
        = some 86400
    ∧ ttlAt (SessionManager.set cookieWorld "k" (Value.int 2)) "sid"
        = some 86400 :=
  C7_fixed_ttl cookieWorld "sid" [("a", Value.int 1)] "k" (Value.int 2)
    (by decide)

/-- C8 (counterexample): with `pycket_redis` containing a plain "db"
connection parameter set to 5 (and neither custom selector key), the
settings handed to the Redis client carry "db" = 0 — the user-supplied
"db" entry is overwritten, not passed through unchanged. -/
theorem C8_counterexample :
    (redisSettings dbWorld).fst = [("db", Value.int 0), ("host", Value.str "h")]
    ∧ ¬ alookup (redisSettings dbWorld).fst "db"
        = alookup [("db", Value.int 5), ("host", Value.str "h")] "db" := by
  decide

/-- C8 (amended): both custom selector keys are stripped from the
connection parameters, the "db" entry handed to the client is always the
sessions selector value (dataset 0 when "db_sessions" is unset) —
overwriting any caller-supplied "db" — and every parameter other than
"db" and the two selector keys is passed through unchanged. -/
theorem C8_clean_settings (w : World) (rs : SettingsDict) (k : String)
    (h : w.handler.settings.pycketRedis = some rs) :
    alookup (redisSettings w).fst DB_SETTING = Option.none
    ∧ alookup (redisSettings w).fst NotificationManager.DB_SETTING
        = Option.none
    ∧ alookup (redisSettings w).fst "db"
        = some ((alookup rs DB_SETTING).getD DB)
    ∧ (¬ k = "db" → ¬ k = DB_SETTING → ¬ k = NotificationManager.DB_SETTING →
        alookup (redisSettings w).fst k = alookup rs k) := by
  rw [redisSettings_fst, h]
  unfold cleanRedisSettings
  simp only [Option.getD_some]
  refine ⟨?_, ?_, ?_, ?_⟩
  · rw [alookup_adel, alookup_adel]
    simp [DB_SETTING, NotificationManager.DB_SETTING]
  · rw [alookup_adel]
    simp
  · rw [alookup_adel, alookup_adel, alookup_aset]
    simp [DB_SETTING, NotificationManager.DB_SETTING]
  · intro h1 h2 h3
    rw [alookup_adel, alookup_adel, alookup_aset,
        if_neg (fun heq => h3 heq.symm), if_neg (fun heq => h2 heq.symm),
        if_neg (fun heq => h1 heq.symm)]

/-- Witness for C8 (amended): with "db_sessions" = 3 and "port" = 7
configured, the client settings carry "db" = 3, no selector keys, and
"port" unchanged. -/
theorem C8_clean_settings_witness :
    alookup (redisSettings settingsWorld).fst DB_SETTING = Option.none
    ∧ alookup (redisSettings settingsWorld).fst "db" = some (Value.int 3)
    ∧ alookup (redisSettings settingsWorld).fst "port" = some (Value.int 7) := by
  have hc := C8_clean_settings settingsWorld
    [(DB_SETTING, Value.int 3), ("port", Value.int 7)] "port" (by decide)
  refine ⟨hc.1, ?_, ?_⟩
  · rw [hc.2.2.1]; decide
  · rw [hc.2.2.2 (by decide) (by decide) (by decide)]; decide

/-- C9 (counterexample): `delete("a", "a")` with "a" present raises
KeyError during the in-memory mutation and the save is never reached —
the claim that every mutating operation saves the entire re-serialized
mapping back fails at this input: the store is entirely untouched and in
particular does not hold the doubly-deleted (empty) mapping. -/
theorem C9_counterexample :
    (SessionManager.delete (SessionManager.set cookieWorld "a" (Value.int 1))
        ["a", "a"]).fst = Option.none
    ∧ (SessionManager.delete (SessionManager.set cookieWorld "a" (Value.int 1))
        ["a", "a"]).snd.store
        = (SessionManager.set cookieWorld "a" (Value.int 1)).store
    ∧ ¬ redisGet (SessionManager.delete (SessionManager.set cookieWorld "a"
        (Value.int 1)) ["a", "a"]).snd.store "sid"
        = some (pickleDumps []) := by
  decide

/-- C9 (amended): every mutating operation is load → in-memory mutation
→ save of the ENTIRE re-serialized mapping, with no partial or
field-level store update: `set` always completes the cycle, writing the
whole mutated mapping under the resolved identifier and leaving records
under every other identifier (content and TTL) untouched; `delete`
completes the same cycle whenever its in-memory mutation succeeds, and
when that mutation raises (a present name listed more than once) the
exception propagates before the save and the store is left entirely
untouched — the record is always either fully replaced or not written at
all. -/
theorem C9_read_modify_write (w : World) (sid oid k : String) (v : Value)
    (names : List String)
    (h : alookup w.handler.requestCookies SESSION_ID_NAME = some sid) :
    redisGet (SessionManager.set w k v).store sid
        = some (pickleDumps (aset (sessionAt w sid) k v))
    ∧ (∀ s2 : Session, deleteCallback names (sessionAt w sid) = some s2 →
        redisGet (SessionManager.delete w names).snd.store sid
          = some (pickleDumps s2))
    ∧ ((SessionManager.delete w names).fst = Option.none →
        (SessionManager.delete w names).snd.store = w.store)
    ∧ (¬ oid = sid →
        redisGet (SessionManager.set w k v).store oid = redisGet w.store oid
        ∧ redisTtl (SessionManager.set w k v).store oid
            = redisTtl w.store oid) := by
  refine ⟨?_, ?_, ?_, ?_⟩
  · unfold SessionManager.set
    rw [changeSession_store_of_cookie w sid _ h, redisGet_write]
    simp
  · intro s2 hdc
    have hc := changeSessionE_of_some w sid (deleteCallback names) s2 h hdc
    unfold SessionManager.delete
    rw [hc.2.1, redisGet_write, if_pos rfl]
  · intro hfail
    cases hdc : deleteCallback names (getSessionFromDb w).fst with
    | none => exact (delete_of_raise w names hdc).2.1
    | some s2 =>
      exfalso
      have hok : (SessionManager.delete w names).fst = some () := by
        unfold SessionManager.delete changeSessionE
        dsimp only
        rw [hdc]
      rw [hok] at hfail
      exact Option.noConfusion hfail
  · intro hne
    unfold SessionManager.set
    rw [changeSession_store_of_cookie w sid _ h]
    constructor
    · rw [redisGet_write, if_neg (fun heq => hne heq.symm)]
    · rw [redisTtl_write, if_neg (fun heq => hne heq.symm)]

/-- Witness for C9 (amended) at the concrete cookie-carrying client: a
`set` record is the whole mutated mapping, a successful `delete` saves
the whole mutated mapping, and an unrelated record is untouched. -/
theorem C9_read_modify_write_witness :
    redisGet (SessionManager.set cookieWorld "k" (Value.int 1)).store "sid"
        = some (pickleDumps (aset (sessionAt cookieWorld "sid") "k" (Value.int 1)))
    ∧ redisGet (SessionManager.delete cookieWorld ["zz"]).snd.store "sid"
        = some (pickleDumps [])
    ∧ redisGet (SessionManager.set cookieWorld "k" (Value.int 1)).store "other"
        = redisGet cookieWorld.store "other" :=
  ⟨(C9_read_modify_write cookieWorld "sid" "other" "k" (Value.int 1) ["zz"]
      (by decide)).1,
   (C9_read_modify_write cookieWorld "sid" "other" "k" (Value.int 1) ["zz"]
      (by decide)).2.1 [] (by decide),
   ((C9_read_modify_write cookieWorld "sid" "other" "k" (Value.int 1) ["zz"]
      (by decide)).2.2.2 (by decide)).1⟩

/-- C10: configuration lookup mutates shared state: when the application
configured `pycket_cookies` and `pycket_redis`, an operation that mints a
cookie and touches the store (here a `get` by a cookie-less client on a
fresh manager) leaves "expires" and "expires_days" entries inserted in
place in the shared cookie settings (existing values preserved, else
None) and a "db" entry written in place into the shared Redis settings;
only the stripped copy handed to the connection loses the selector keys —
the shared dict keeps its "db_sessions" entry. -/
theorem C10_settings_side_effect (w : World) (k : String) (d : Value)
    (cs rsd : SettingsDict)
    (hc : w.handler.settings.pycketCookies = some cs)
    (hr : w.handler.settings.pycketRedis = some rsd)
    (hd : w.dataset = Option.none)
    (hck : alookup w.handler.requestCookies SESSION_ID_NAME = Option.none) :
    (∃ cs' : SettingsDict,
      (SessionManager.get w k d).snd.handler.settings.pycketCookies = some cs'
      ∧ alookup cs' "expires" = some ((alookup cs "expires").getD Value.none)
      ∧ alookup cs' "expires_days"
          = some ((alookup cs "expires_days").getD Value.none))
    ∧ (∃ rs' : SettingsDict,
      (SessionManager.get w k d).snd.handler.settings.pycketRedis = some rs'
      ∧ alookup rs' "db" = some ((alookup rsd DB_SETTING).getD DB)
      ∧ alookup rs' DB_SETTING = alookup rsd DB_SETTING
      ∧ (SessionManager.get w k d).snd.dataset
          = some (cleanRedisSettings rs')) := by
  have hsnd : (SessionManager.get w k d).snd
      = setupDataset (getSessionId w).snd := rfl
  have h1c : (getSessionId w).snd.handler.settings.pycketCookies
      = some (asetdefault (asetdefault cs "expires" Value.none)
          "expires_days" Value.none) :=
    getSessionId_pycketCookies_noCookie w cs hck hc
  have h1r : (getSessionId w).snd.handler.settings.pycketRedis = some rsd := by
    rw [getSessionId_pycketRedis, hr]
  have h1d : (getSessionId w).snd.dataset = Option.none := by
    rw [getSessionId_dataset, hd]
  constructor
  · refine ⟨asetdefault (asetdefault cs "expires" Value.none)
        "expires_days" Value.none, ?_, ?_, ?_⟩
    · rw [hsnd, setupDataset_pycketCookies, h1c]
    · rw [alookup_asetdefault_ne _ _ _ _ (by decide),
          alookup_asetdefault_self]
    · rw [alookup_asetdefault_self,
          alookup_asetdefault_ne _ _ _ _ (by decide)]
  · refine ⟨aset rsd "db" ((alookup rsd DB_SETTING).getD DB), ?_, ?_, ?_, ?_⟩
    · rw [hsnd]
      exact setupDataset_pycketRedis_fresh _ rsd h1d h1r
    · rw [alookup_aset, if_pos rfl]
    · rw [alookup_aset, if_neg (by decide)]
    · rw [hsnd, setupDataset_dataset_fresh _ h1d, redisSettings_fst, h1r]
      rfl

/-- Witness for C10: with concrete settings dicts, a read by a
cookie-less client leaves both shared dicts mutated in place. -/
theorem C10_settings_side_effect_witness :
    (∃ cs' : SettingsDict,
      (SessionManager.get settingsWorld "x" Value.none).snd.handler.settings.pycketCookies
          = some cs'
      ∧ alookup cs' "expires"
          = some ((alookup [("domain", Value.str "d")] "expires").getD Value.none)
      ∧ alookup cs' "expires_days"
          = some ((alookup [("domain", Value.str "d")] "expires_days").getD
              Value.none))
    ∧ (∃ rs' : SettingsDict,
      (SessionManager.get settingsWorld "x" Value.none).snd.handler.settings.pycketRedis
          = some rs'
      ∧ alookup rs' "db"
          = some ((alookup [(DB_SETTING, Value.int 3), ("port", Value.int 7)]
              DB_SETTING).getD DB)
      ∧ alookup rs' DB_SETTING
          = alookup [(DB_SETTING, Value.int 3), ("port", Value.int 7)] DB_SETTING
      ∧ (SessionManager.get settingsWorld "x" Value.none).snd.dataset
          = some (cleanRedisSettings rs')) :=
  C10_settings_side_effect settingsWorld "x" Value.none
    [("domain", Value.str "d")] [(DB_SETTING, Value.int 3), ("port", Value.int 7)]
    (by decide) (by decide) (by decide) (by decide)
